import Mathlib

/-!
Verification of the abstruse server bootstrap / configuration subsystem.

The development shallowly embeds the Go sources:
  * the `core` package (InitDefaults, InitConfig, InitTLS, InitDB,
    InitAuthentication, SaveConfig) together with the parts of the viper
    configuration library and Go's path/filepath that those functions use;
  * `master/app/config.go` (ReadAndParseConfig) together with the
    encoding/json behaviour it relies on.

Pure functions become Lean functions; the process-wide globals
(ConfigFile, Config, Log, the viper singleton, the auth and db package
state, the on-disk configuration file) become an explicit `AppState`
record threaded through the step functions.  Go nil pointers are `none`;
a nil-pointer dereference and os.Exit are distinguished outcomes of a
step.  Each step also appends to an event trace so that ordering
properties can be stated.
-/

namespace Abstruse

/-! ## Go strings / path/filepath model (Unix rules) -/

/-- Go strings.HasPrefix(p, "/"), the absolute-path test the source uses
for every path-bearing field (InitConfig, InitTLS). -/
def isAbs (p : String) : Bool := p.data.head? == some '/'

/-- One step of path/filepath.Clean over the components of a path (empty
and "." components have already been dropped): ".." pops the previous
component, is kept at the front of a relative path and dropped at the
root of an absolute one.  The accumulator holds the output reversed. -/
def cleanStep (rooted : Bool) (acc : List (List Char)) (c : List Char) : List (List Char) :=
  if c = ['.', '.'] then
    match acc with
    | [] => if rooted then [] else [c]
    | a :: rest => if a = ['.', '.'] then c :: acc else rest
  else c :: acc

/-- The component pass of path/filepath.Clean. -/
def cleanComps (rooted : Bool) (cs : List (List Char)) : List (List Char) :=
  ((cs.filter (fun c => c ≠ [] ∧ c ≠ ['.'])).foldl (cleanStep rooted) []).reverse

/-- Go path/filepath.Clean on a Unix path, over the character list. -/
def cleanL (p : List Char) : List Char :=
  if p = [] then ['.']
  else
    match cleanComps (p.head? == some '/') (p.splitOn '/') with
    | [] => if p.head? == some '/' then ['/'] else ['.']
    | cs => if p.head? == some '/' then '/' :: List.intercalate ['/'] cs
            else List.intercalate ['/'] cs

/-- Go path/filepath.Clean on a Unix path. -/
def goClean (p : String) : String := String.mk (cleanL p.data)

/-- Go strings.Join(l, "/"). -/
def joinSlash : List String → String
  | [] => ""
  | [a] => a
  | a :: rest => a ++ "/" ++ joinSlash rest

/-- Go path/filepath.Join: leading empty elements are skipped, the rest is
joined with "/" and Cleaned; all elements empty yields "". -/
def goJoinList (l : List String) : String :=
  match l.dropWhile (fun s => s == "") with
  | [] => ""
  | parts => goClean (joinSlash parts)

/-- Binary path/filepath.Join. -/
def goJoin (a b : String) : String := goJoinList [a, b]

/-- Go path/filepath.Dir on a Unix path: everything up to and including
the final "/" is Cleaned; a path with no "/" has directory ".". -/
def filepathDir (p : String) : String :=
  match p.data.reverse.findIdx? (· == '/') with
  | none => "."
  | some k => String.mk (cleanL (p.data.take (p.data.length - k)))

/-- The normalization pattern the source repeats for every path-bearing
field (and the spec's PathResolver.Resolve): a path with the "/" prefix
is kept unchanged, any other is joined under the base directory. -/
def resolvePath (base p : String) : String := if isAbs p then p else goJoin base p

/-! ## The configuration data model

The server/config package is not under src/; the struct below is
reconstructed field by field from its uses in the core package
(SaveConfig sets all 28 keys from it, InitConfig unmarshals into it and
normalizes four of its fields) and from the section list of the spec.
Go time.Duration and the integer fields are embedded as Int. -/

structure HTTPCfg where
  addr : String
  tls : Bool
deriving DecidableEq

structure TLSCfg where
  cert : String
  key : String
deriving DecidableEq

structure DbCfg where
  driver : String
  host : String
  port : Int
  user : String
  password : String
  name : String
  charset : String
deriving DecidableEq

structure EtcdCfg where
  name : String
  host : String
  clientPort : Int
  peerPort : Int
  dataDir : String
  username : String
  password : String
  rootPassword : String
deriving DecidableEq

structure AuthCfg where
  jwtSecret : String
  jwtExpiry : Int
  jwtRefreshExpiry : Int
deriving DecidableEq

structure LogCfg where
  level : String
  stdout : Bool
  filename : String
  maxSize : Int
  maxBackups : Int
  maxAge : Int
deriving DecidableEq

/-- config.Config, the configuration snapshot the core package holds in
the process-wide Config global. -/
structure Config where
  http : HTTPCfg
  tls : TLSCfg
  db : DbCfg
  etcd : EtcdCfg
  auth : AuthCfg
  log : LogCfg
deriving DecidableEq

/-! ## The viper configuration registry

The core package merges configuration through the spf13/viper library.
The embedding keeps only what the source exercises: the override layer
written by viper.Set, the pflag bindings of InitDefaults, automatic
environment lookup with the "abstruse" namespace and the "." to "_" key
replacer, the map parsed from the configuration file, and the bound
flags' default values; viper.Get resolves them in exactly that order
(viper.find: override, changed flag, environment, config file, flag
default). -/

inductive VValue where
  | str (s : String)
  | int (n : Int)
  | bool (b : Bool)
deriving DecidableEq

/-- A bound command-line flag: whether the user set it, its value if so,
and its built-in default. -/
structure Flag where
  changed : Bool
  value : VValue
  defValue : VValue
deriving DecidableEq

structure Viper where
  overrides : List (String × VValue)
  flags : List (String × Flag)
  envPfx : String
  envDotReplacer : Bool
  autoEnv : Bool
  configMap : List (String × VValue)
  configFile : String
deriving DecidableEq

/-- strings.ToLower (character-wise, over the character list). -/
def goToLower (s : String) : String := String.mk (s.data.map Char.toLower)

/-- strings.ToUpper (character-wise, over the character list). -/
def goToUpper (s : String) : String := String.mk (s.data.map Char.toUpper)

/-- The environment-variable name viper consults for a (lower-cased) key:
mergeWithEnvPrefix upper-cases "pfx_key", then the replacer installed by
InitConfig rewrites "." to "_" (so "db.host" becomes ABSTRUSE_DB_HOST). -/
def envKeyOf (v : Viper) (lk : String) : String :=
  let m := goToUpper (if v.envPfx = "" then lk else v.envPfx ++ "_" ++ lk)
  if v.envDotReplacer then String.mk (m.data.map (fun c => if c = '.' then '_' else c))
  else m

/-- viper.Viper.find: the merged lookup.  Keys are case-insensitive
(lower-cased at entry); the tiers are consulted in source order. -/
def viperGet (v : Viper) (env : String → Option String) (k : String) : Option VValue :=
  let lk := goToLower k
  match v.overrides.lookup lk with
  | some x => some x
  | none =>
    match (v.flags.lookup lk).bind (fun f => if f.changed then some f.value else none) with
    | some x => some x
    | none =>
      match (if v.autoEnv then (env (envKeyOf v lk)).map VValue.str else none) with
      | some x => some x
      | none =>
        match v.configMap.lookup lk with
        | some x => some x
        | none => (v.flags.lookup lk).map (fun f => f.defValue)

/-- cast.ToString on a stored value. -/
def toGoString : VValue → String
  | .str s => s
  | .int n => toString n
  | .bool b => if b then "true" else "false"

/-- cast.ToBool: strconv.ParseBool semantics on strings, zero test on
numbers; an unparseable value yields false. -/
def toGoBool : VValue → Bool
  | .bool b => b
  | .int n => n != 0
  | .str s => s ∈ ["1", "t", "T", "TRUE", "true", "True"]

/-- cast.ToInt; an unparseable string yields 0. -/
def toGoInt : VValue → Int
  | .int n => n
  | .bool b => if b then 1 else 0
  | .str s => (s.toInt?).getD 0

/-- cast.ToDuration (nanoseconds).  Duration-valued keys are only ever
stored as numbers by this program (SaveConfig stores the Config field,
flag defaults are durations); duration-string parsing is never exercised
and yields the error default 0 here. -/
def toGoDuration : VValue → Int
  | .int n => n
  | .bool _ => 0
  | .str _ => 0

def vGetString (v : Viper) (env : String → Option String) (k : String) : String :=
  ((viperGet v env k).map toGoString).getD ""

def vGetBool (v : Viper) (env : String → Option String) (k : String) : Bool :=
  ((viperGet v env k).map toGoBool).getD false

def vGetInt (v : Viper) (env : String → Option String) (k : String) : Int :=
  ((viperGet v env k).map toGoInt).getD 0

def vGetDuration (v : Viper) (env : String → Option String) (k : String) : Int :=
  ((viperGet v env k).map toGoDuration).getD 0

/-- viper.Unmarshal(&Config): every key of the schema is flag-bound by
InitDefaults, so AllSettings contains each of the 28 keys and the
mapstructure decode amounts to one typed Get per key. -/
def unmarshalConfig (v : Viper) (env : String → Option String) : Config :=
  { http := { addr := vGetString v env "http.addr"
              tls := vGetBool v env "http.tls" }
    tls := { cert := vGetString v env "tls.cert"
             key := vGetString v env "tls.key" }
    db := { driver := vGetString v env "db.driver"
            host := vGetString v env "db.host"
            port := vGetInt v env "db.port"
            user := vGetString v env "db.user"
            password := vGetString v env "db.password"
            name := vGetString v env "db.name"
            charset := vGetString v env "db.charset" }
    etcd := { name := vGetString v env "etcd.name"
              host := vGetString v env "etcd.host"
              clientPort := vGetInt v env "etcd.clientport"
              peerPort := vGetInt v env "etcd.peerport"
              dataDir := vGetString v env "etcd.datadir"
              username := vGetString v env "etcd.username"
              password := vGetString v env "etcd.password"
              rootPassword := vGetString v env "etcd.rootpassword" }
    auth := { jwtSecret := vGetString v env "auth.jwtsecret"
              jwtExpiry := vGetDuration v env "auth.jwtexpiry"
              jwtRefreshExpiry := vGetDuration v env "auth.jwtrefreshexpiry" }
    log := { level := vGetString v env "log.level"
             stdout := vGetBool v env "log.stdout"
             filename := vGetString v env "log.filename"
             maxSize := vGetInt v env "log.maxsize"
             maxBackups := vGetInt v env "log.maxbackups"
             maxAge := vGetInt v env "log.maxage" } }

/-- The four if-blocks at the end of InitConfig: each path-bearing field
that does not start with "/" is joined under the directory of the active
configuration file. -/
def normalizeConfigPaths (base : String) (c : Config) : Config :=
  { c with
    etcd.dataDir := resolvePath base c.etcd.dataDir
    log.filename := resolvePath base c.log.filename
    tls.cert := resolvePath base c.tls.cert
    tls.key := resolvePath base c.tls.key }

/-- The registered keys (viper.AllKeys): every key of the override layer,
the config file and the flag bindings.  Duplicates are harmless to the
lookups the program performs: every occurrence of a key carries the same
merged value. -/
def allKeys (v : Viper) : List String :=
  v.overrides.map Prod.fst ++ v.configMap.map Prod.fst ++ v.flags.map Prod.fst

/-- viper.AllSettings, the map SafeWriteConfigAs / WriteConfigAs
serialize to the configuration file: every registered key with its
merged Get value. -/
def allSettings (v : Viper) (env : String → Option String) : List (String × VValue) :=
  (allKeys v).filterMap (fun k => (viperGet v env k).map (fun x => (k, x)))

/-! ## Process state and the bootstrap / reconfiguration steps -/

/-- One observable step of the core package, for ordering properties. -/
inductive Ev where
  | mkdir (d : String)
  | safeWriteConfig
  | logInfo (site : String)
  | readInConfig
  | unmarshalCfg
  | newLogger
  | setGlobalConfig
  | viperSetAll
  | authInit
  | dbConnect
  | writeConfig
deriving DecidableEq

/-- The error kinds the embedded steps surface.  `validation` is modelled
from the spec: the spec's error taxonomy names a ValidationError for a
structurally invalid new configuration, but no code path of the source
produces one. -/
inductive GoErr where
  | homeDirErr
  | mkdirErr
  | writeErr
  | readErr
  | parseErr
  | loggerErr
  | validation
deriving DecidableEq

/-- The process-wide state the core package manipulates: the ConfigFile,
Config and Log globals, the viper singleton, the process environment,
the auth and db package state, and the configuration file on disk
(`diskFile`: none = absent, some none = present but unparseable,
some (some m) = present and parsing to m).  The Booleans are the ambient
conditions deciding whether the file-system and logger collaborators
succeed (fs.MakeDir, the config-file writes, logger.NewLogger); the fs
package is not under src/ and is modelled from the spec's narrow
interface for it. -/
structure AppState where
  configFile : String
  config : Option Config
  log : Option LogCfg
  viper : Viper
  env : String → Option String
  home : Option String
  diskFile : Option (Option (List (String × VValue)))
  dirs : List String
  mkdirOk : Bool
  writeOk : Bool
  loggerOk : Bool
  auth : Option (String × Int × Int)
  dbConn : Option DbCfg
  trace : List Ev

/-- InitAuthentication: reads the three auth keys through viper and calls
auth.Init.  The auth package is not under src/; modelled from the spec's
collaborator interface Init(secret, expiry, refresh_expiry), which
stores its three arguments as the process-wide authentication state. -/
def initAuthentication (s : AppState) : AppState :=
  { s with
    auth := some (vGetString s.viper s.env "auth.jwtsecret",
                  vGetDuration s.viper s.env "auth.jwtexpiry",
                  vGetDuration s.viper s.env "auth.jwtrefreshexpiry")
    trace := s.trace ++ [Ev.authInit] }

/-- InitDB: db.Connect(Config.Db, Log).  The db package is not under
src/; modelled from the spec's collaborator interface Connect(db_config),
which establishes the process-wide connection for those parameters. -/
def initDB (s : AppState) : AppState :=
  { s with
    dbConn := s.config.map (fun c => c.db)
    trace := s.trace ++ [Ev.dbConnect] }

/-- viper.Set: writes the override layer, the highest precedence tier.
Later Sets shadow earlier ones (lookup takes the first match of the
prepend-ordered list). -/
def viperSet (v : Viper) (k : String) (x : VValue) : Viper :=
  { v with overrides := (goToLower k, x) :: v.overrides }

/-- The 28 viper.Set calls of SaveConfig, in source order. -/
def viperSetAll (v : Viper) (c : Config) : Viper :=
  let v := viperSet v "http.addr" (VValue.str c.http.addr)
  let v := viperSet v "http.tls" (VValue.bool c.http.tls)
  let v := viperSet v "tls.cert" (VValue.str c.tls.cert)
  let v := viperSet v "tls.key" (VValue.str c.tls.key)
  let v := viperSet v "db.driver" (VValue.str c.db.driver)
  let v := viperSet v "db.host" (VValue.str c.db.host)
  let v := viperSet v "db.port" (VValue.int c.db.port)
  let v := viperSet v "db.user" (VValue.str c.db.user)
  let v := viperSet v "db.password" (VValue.str c.db.password)
  let v := viperSet v "db.name" (VValue.str c.db.name)
  let v := viperSet v "db.charset" (VValue.str c.db.charset)
  let v := viperSet v "etcd.name" (VValue.str c.etcd.name)
  let v := viperSet v "etcd.host" (VValue.str c.etcd.host)
  let v := viperSet v "etcd.clientport" (VValue.int c.etcd.clientPort)
  let v := viperSet v "etcd.peerport" (VValue.int c.etcd.peerPort)
  let v := viperSet v "etcd.datadir" (VValue.str c.etcd.dataDir)
  let v := viperSet v "etcd.username" (VValue.str c.etcd.username)
  let v := viperSet v "etcd.password" (VValue.str c.etcd.password)
  let v := viperSet v "etcd.rootpassword" (VValue.str c.etcd.rootPassword)
  let v := viperSet v "auth.jwtsecret" (VValue.str c.auth.jwtSecret)
  let v := viperSet v "auth.jwtexpiry" (VValue.int c.auth.jwtExpiry)
  let v := viperSet v "auth.jwtrefreshexpiry" (VValue.int c.auth.jwtRefreshExpiry)
  let v := viperSet v "log.level" (VValue.str c.log.level)
  let v := viperSet v "log.stdout" (VValue.bool c.log.stdout)
  let v := viperSet v "log.filename" (VValue.str c.log.filename)
  let v := viperSet v "log.maxsize" (VValue.int c.log.maxSize)
  let v := viperSet v "log.maxbackups" (VValue.int c.log.maxBackups)
  let v := viperSet v "log.maxage" (VValue.int c.log.maxAge)
  v

/-- How a SaveConfig call ends: a Go return (with its error value), or a
nil-pointer panic at the named dereference site.  Either way the state
reached so far is kept: Go has already applied those side effects. -/
inductive SaveOutcome where
  | ret (s : AppState) (e : Option GoErr)
  | nilPanic (s : AppState) (site : String)

def SaveOutcome.state : SaveOutcome → AppState
  | .ret s _ => s
  | .nilPanic s _ => s

def SaveOutcome.err : SaveOutcome → Option GoErr
  | .ret _ e => e
  | .nilPanic _ _ => none

def SaveOutcome.panicked : SaveOutcome → Bool
  | .ret _ _ => false
  | .nilPanic _ _ => true

/-- SaveConfig (the Reconfigurator entry point), step for step from the
source: the Config global is replaced by the argument first and
unconditionally; the 28 viper.Set calls copy it into the override layer
(dereferencing the argument: a nil argument panics at the first one);
InitAuthentication and InitDB re-initialize from viper; a log line is
emitted (dereferencing the Log global); finally viper.WriteConfigAs
persists AllSettings to the configuration file, and its error is the
call's return value. -/
def saveConfig (s : AppState) (cfg : Option Config) : SaveOutcome :=
  let s1 : AppState := { s with config := cfg, trace := s.trace ++ [Ev.setGlobalConfig] }
  match cfg with
  | none => SaveOutcome.nilPanic s1 "Config.HTTP.Addr"
  | some c =>
    let s2 : AppState :=
      { s1 with viper := viperSetAll s1.viper c, trace := s1.trace ++ [Ev.viperSetAll] }
    let s3 := initAuthentication s2
    let s4 := initDB s3
    match s4.log with
    | none => SaveOutcome.nilPanic s4 "Log.Sugar.saveConfig"
    | some _ =>
      let s5 : AppState := { s4 with trace := s4.trace ++ [Ev.logInfo "saveConfig"] }
      if s5.writeOk then
        SaveOutcome.ret
          { s5 with diskFile := some (some (allSettings s5.viper s5.env))
                    trace := s5.trace ++ [Ev.writeConfig] } none
      else
        SaveOutcome.ret { s5 with trace := s5.trace ++ [Ev.writeConfig] } (some GoErr.writeErr)

/-- How an InitConfig call ends: a normal return, process exit through
fatal(), or a nil-pointer panic at the named site. -/
inductive InitOutcome where
  | ok (s : AppState)
  | fatalExit (s : AppState) (e : GoErr)
  | nilPanic (s : AppState) (site : String)

def InitOutcome.state : InitOutcome → AppState
  | .ok s => s
  | .fatalExit s _ => s
  | .nilPanic s _ => s

def InitOutcome.isOk : InitOutcome → Bool
  | .ok _ => true
  | _ => false

def InitOutcome.panicked : InitOutcome → Bool
  | .nilPanic _ _ => true
  | _ => false

def InitOutcome.panicSite : InitOutcome → Option String
  | .nilPanic _ site => some site
  | _ => none

/-- The viper.SetConfigFile / SetConfigType / SetEnvPrefix /
SetEnvKeyReplacer / AutomaticEnv block of InitConfig. -/
def viperSetup (s : AppState) : AppState :=
  { s with viper := { s.viper with
      configFile := s.configFile
      envPfx := "abstruse"
      envDotReplacer := true
      autoEnv := true } }

/-- The tail of InitConfig from viper.ReadInConfig on: the file is read
into viper (fatal on a missing or unparseable file), unmarshalled into
the Config global, the four path fields are normalized against the
config file's directory, and logger.NewLogger(Config.Log) is assigned to
the Log global (fatal on failure). -/
def initConfigRead (s : AppState) : InitOutcome :=
  match s.diskFile with
  | none => InitOutcome.fatalExit s GoErr.readErr
  | some none => InitOutcome.fatalExit s GoErr.parseErr
  | some (some m) =>
    let sv : AppState :=
      { s with viper := { s.viper with configMap := m }
               trace := s.trace ++ [Ev.readInConfig] }
    let c1 := normalizeConfigPaths (filepathDir sv.viper.configFile)
                (unmarshalConfig sv.viper sv.env)
    let su : AppState := { sv with config := some c1, trace := sv.trace ++ [Ev.unmarshalCfg] }
    if su.loggerOk then
      InitOutcome.ok { su with log := some c1.log, trace := su.trace ++ [Ev.newLogger] }
    else InitOutcome.fatalExit su GoErr.loggerErr

/-- The first-run write of InitConfig: viper.SafeWriteConfigAs writes
AllSettings (the flag defaults, at this point) as the new configuration
file (fatal on failure), then Log.Sugar().Infof logs the write - a
dereference of the Log global, which panics when Log is still nil. -/
def initConfigWrite (s : AppState) : InitOutcome :=
  if s.writeOk then
    let sw : AppState :=
      { s with diskFile := some (some (allSettings s.viper s.env))
               trace := s.trace ++ [Ev.safeWriteConfig] }
    match sw.log with
    | none => InitOutcome.nilPanic sw "Log.Sugar.initConfig"
    | some _ => initConfigRead { sw with trace := sw.trace ++ [Ev.logInfo "initConfig"] }
  else InitOutcome.fatalExit s GoErr.writeErr

/-- The middle of InitConfig: when no file exists at the config path, the
parent directory is created if absent (fatal when fs.MakeDir fails) and
the defaults are written; then the read tail runs. -/
def initConfigFrom (s : AppState) : InitOutcome :=
  if s.diskFile.isSome then
    initConfigRead s
  else if filepathDir s.configFile ∈ s.dirs then
    initConfigWrite s
  else if s.mkdirOk then
    initConfigWrite { s with dirs := filepathDir s.configFile :: s.dirs
                             trace := s.trace ++ [Ev.mkdir (filepathDir s.configFile)] }
  else
    InitOutcome.fatalExit s GoErr.mkdirErr

/-- InitConfig: when the ConfigFile global is empty it defaults to
HOME/abstruse/abstruse-server.json (fatal when fs.GetHomeDir fails),
viper is pointed at it, and the first-run / read phases follow. -/
def initConfig (s : AppState) : InitOutcome :=
  if s.configFile = "" then
    match s.home with
    | none => InitOutcome.fatalExit s GoErr.homeDirErr
    | some h =>
      initConfigFrom (viperSetup
        { s with configFile := goJoinList [h, "abstruse", "abstruse-server.json"] })
  else
    initConfigFrom (viperSetup s)

/-- The pure part of InitTLS: the certificate and key paths it hands to
tlsutil.CheckAndGenerateCert are the stored TLS fields re-resolved
against the config file's directory. -/
def initTLSPaths (configFile : String) (c : Config) : String × String :=
  (resolvePath (filepathDir configFile) c.tls.cert,
   resolvePath (filepathDir configFile) c.tls.key)

/-- The merged value the configuration file on disk holds for a key, as
seen on re-read. -/
def diskLookup (s : AppState) (k : String) : Option VValue :=
  match s.diskFile with
  | some (some m) => m.lookup k
  | _ => none

/-- a strictly precedes b in the trace (both present, first occurrence
of a before first occurrence of b). -/
def before (l : List Ev) (a b : Ev) : Bool :=
  match l.indexOf? a, l.indexOf? b with
  | some i, some j => i < j
  | _, _ => false

/-- Modelled from the spec: SaveConfig is specified to accept the new
configuration "only after validating it is structurally well-formed".
The source defines no validation; the minimal structural requirement on
a *config.Config argument is that the pointer is non-nil (a nil argument
has no struct to be well-formed). -/
def structurallyWellFormed (cfg : Option Config) : Bool := cfg.isSome

/-! ## Concrete sample inputs for witnesses and counterexamples -/

def lgA : LogCfg :=
  { level := "info", stdout := true, filename := "/var/log/a.log"
    maxSize := 100, maxBackups := 3, maxAge := 7 }

def cfgA : Config :=
  { http := { addr := "0.0.0.0:80", tls := false }
    tls := { cert := "/h/a/cert.pem", key := "/h/a/key.pem" }
    db := { driver := "mysql", host := "localhost", port := 3306, user := "root"
            password := "pw", name := "abstruse", charset := "utf8" }
    etcd := { name := "abstruse", host := "0.0.0.0", clientPort := 2379, peerPort := 2380
              dataDir := "/h/a/data", username := "abstruse", password := "pw"
              rootPassword := "pw" }
    auth := { jwtSecret := "oldsecret", jwtExpiry := 900000000000
              jwtRefreshExpiry := 3600000000000 }
    log := lgA }

def cfgB : Config :=
  { cfgA with auth := { jwtSecret := "newsecret", jwtExpiry := 100, jwtRefreshExpiry := 200 } }

def viper0 : Viper :=
  { overrides := [], flags := [], envPfx := "", envDotReplacer := false
    autoEnv := false, configMap := [], configFile := "" }

def env0 : String → Option String := fun _ => none

/-- A state as left by a completed bootstrap: config file present at an
absolute path, Config and Log assigned. -/
def sBase : AppState :=
  { configFile := "/h/a/f.json"
    config := some cfgA
    log := some lgA
    viper := { viper0 with configFile := "/h/a/f.json", envPfx := "abstruse"
                           envDotReplacer := true, autoEnv := true }
    env := env0
    home := some "/h"
    diskFile := some (some [("auth.jwtsecret", VValue.str "oldsecret")])
    dirs := ["/h/a"]
    mkdirOk := true
    writeOk := true
    loggerOk := true
    auth := none
    dbConn := none
    trace := [] }

def sWriteFail : AppState := { sBase with writeOk := false }

/-- A state ready for a SaveConfig call, like `sBase`, but with the Log
global still nil and no configuration file on disk: the situation of a
first InitConfig run with an explicit --config path whose directory
exists. -/
def sC9 : AppState := { sBase with log := none, diskFile := none, config := none }

/-- The two TLS flag bindings with their built-in defaults, as InitDefaults
leaves them for a fresh run (the remaining flags play no role in the
fresh-run claims and stay unbound). -/
def flagsFresh : List (String × Flag) :=
  [("tls.cert", { changed := false, value := VValue.str "", defValue := VValue.str "cert.pem" }),
   ("tls.key", { changed := false, value := VValue.str "", defValue := VValue.str "key.pem" })]

/-- A fresh environment: ConfigFile unset, home directory /h, no file and
no ~/abstruse directory yet, and - InitConfig being the first
initialization step - the Log global still nil. -/
def sFresh : AppState :=
  { configFile := "", config := none, log := none
    viper := { viper0 with flags := flagsFresh }
    env := env0, home := some "/h", diskFile := none, dirs := []
    mkdirOk := true, writeOk := true, loggerOk := true
    auth := none, dbConn := none, trace := [] }

/-- A run with a relative --config path: the file exists next to the
working directory and holds a relative TLS certificate path. -/
def sRel : AppState :=
  { configFile := "x.json", config := none, log := some lgA
    viper := viper0, env := env0, home := some "/h"
    diskFile := some (some [("tls.cert", VValue.str "c.pem")])
    dirs := [], mkdirOk := true, writeOk := true, loggerOk := true
    auth := none, dbConn := none, trace := [] }

/-- A run with an absolute config path whose file mixes relative and
absolute path fields. -/
def sAbsIn : AppState :=
  { sBase with
    config := none
    diskFile := some (some
      [("tls.cert", VValue.str "cert.pem"), ("tls.key", VValue.str "/kk.pem"),
       ("etcd.datadir", VValue.str "data"), ("log.filename", VValue.str "log.txt")]) }

def sAbsOut : AppState := (initConfig sAbsIn).state

def cAbsOut : Config := sAbsOut.config.getD cfgA

/-- The merge fixture of the spec's precedence scenario: the file sets
db.host=localhost, the db-host flag is bound but not passed, nothing is
overridden. -/
def flagC4 : Flag :=
  { changed := false, value := VValue.str "", defValue := VValue.str "localhost" }

def vC4 : Viper :=
  { overrides := [], flags := [("db.host", flagC4)], envPfx := "abstruse"
    envDotReplacer := true, autoEnv := true
    configMap := [("db.host", VValue.str "localhost")], configFile := "/h/a/f.json" }

def envC4 : String → Option String :=
  fun k => if k == "ABSTRUSE_DB_HOST" then some "remote" else none

/-! ## master/app/config.go: ReadAndParseConfig

A separate, older Config schema.  The JSON file content is embedded as
either unreadable (no file), syntactically invalid, or a JSON value;
encoding/json first validates the whole input (a syntax error decodes
nothing), then decodes object fields one by one, skipping a field whose
JSON type does not match while recording the first such error. -/

inductive Json where
  | null
  | bool (b : Bool)
  | num (n : Int)
  | str (s : String)
  | arr (elems : List Json)
  | obj (fields : List (String × Json))

/-- app.Config of master/app/config.go.  The nested etcdserver.Config and
rpc.Config schemas are not under src/ and the spec does not describe
them; modelled from the spec as raw JSON values (null standing for their
Go zero value).  They play no role in the claims about this function. -/
structure AppConfig where
  cert : String
  key : String
  etcd : Json
  grpc : Json
  logLevel : String

/-- The Go zero value of app.Config, the state of the local variable
before json.Unmarshal runs. -/
def appZeroConfig : AppConfig :=
  { cert := "", key := "", etcd := Json.null, grpc := Json.null, logLevel := "" }

/-- The decode errors of encoding/json as this function can see them. -/
inductive UnmErr where
  | syntaxErr
  | typeMismatch (field : String)
deriving DecidableEq

/-- The two error wrappers of ReadAndParseConfig. -/
inductive AppErr where
  | reading
  | parsing (e : UnmErr)
deriving DecidableEq

/-- Decoding one object member into app.Config: the tagged keys take a
JSON string (null is a no-op, any other type is an UnmarshalTypeError
and the field is skipped), the raw-modelled nested configs take the
value as is, unknown keys are ignored. -/
def setField (c : AppConfig) (k : String) (v : Json) : AppConfig × Option UnmErr :=
  match k, v with
  | "cert", Json.str s => ({ c with cert := s }, none)
  | "cert", Json.null => (c, none)
  | "cert", _ => (c, some (UnmErr.typeMismatch "cert"))
  | "key", Json.str s => ({ c with key := s }, none)
  | "key", Json.null => (c, none)
  | "key", _ => (c, some (UnmErr.typeMismatch "key"))
  | "log_level", Json.str s => ({ c with logLevel := s }, none)
  | "log_level", Json.null => (c, none)
  | "log_level", _ => (c, some (UnmErr.typeMismatch "log_level"))
  | "etcd", v => ({ c with etcd := v }, none)
  | "grpc", v => ({ c with grpc := v }, none)
  | _, _ => (c, none)

/-- json.Unmarshal(file, &config) for already-valid JSON: a top-level
null is a no-op, a non-object is an UnmarshalTypeError decoding nothing,
an object decodes member by member, completing as best it can and
returning the earliest type error alongside the decoded struct. -/
def unmarshalAppConfig (j : Json) : AppConfig × Option UnmErr :=
  match j with
  | Json.null => (appZeroConfig, none)
  | Json.obj fields =>
    fields.foldl
      (fun (acc : AppConfig × Option UnmErr) kv =>
        let r := setField acc.1 kv.1 kv.2
        (r.1, acc.2 <|> r.2))
      (appZeroConfig, none)
  | _ => (appZeroConfig, some (UnmErr.typeMismatch "Config"))

/-- ReadAndParseConfig: ioutil.ReadFile then json.Unmarshal into a
zero-initialized local config, which is returned in every case - also
when Unmarshal has decoded part of it before a type error. -/
def readAndParseConfig (fs : String → Option (Option Json)) (configPath : String) :
    AppConfig × Option AppErr :=
  match fs configPath with
  | none => (appZeroConfig, some AppErr.reading)
  | some none => (appZeroConfig, some (AppErr.parsing UnmErr.syntaxErr))
  | some (some j) =>
    match unmarshalAppConfig j with
    | (c, some e) => (c, some (AppErr.parsing e))
    | (c, none) => (c, none)

/-- A file holding valid JSON whose cert member is a string and whose
log_level member is a number (a type mismatch for the schema). -/
def fsC10 : String → Option (Option Json) :=
  fun p =>
    if p == "cfg.json" then
      some (some (Json.obj [("cert", Json.str "a"), ("log_level", Json.num 5)]))
    else none

/-! ## Helper lemmas -/

/-- Clean keeps a rooted path rooted. -/
theorem cleanL_abs (l : List Char) (h : l.head? = some '/') : (cleanL l).head? = some '/' := by
  have hne : l ≠ [] := by intro he; rw [he] at h; simp at h
  have hb : (l.head? == some '/') = true := by simp [h]
  unfold cleanL
  rw [if_neg hne, hb]
  rcases cleanComps true (l.splitOn '/') with _ | ⟨a, as⟩ <;> simp

theorem goClean_abs (p : String) (h : isAbs p = true) : isAbs (goClean p) = true := by
  have h' : p.data.head? = some '/' := by simpa [isAbs] using h
  simpa [isAbs, goClean] using cleanL_abs p.data h'

/-- Joining anything under an absolute base stays absolute. -/
theorem goJoin_abs (a b : String) (h : isAbs a = true) : isAbs (goJoin a b) = true := by
  have ha : a.data.head? = some '/' := by simpa [isAbs] using h
  rcases hd : a.data with _ | ⟨c, cs⟩
  · rw [hd] at ha; simp at ha
  · rw [hd] at ha; simp at ha
    have hane : (a == "") = false := by simp [String.ext_iff, hd]
    have hj : goJoin a b = goClean (a ++ "/" ++ b) := by
      simp [goJoin, goJoinList, List.dropWhile, hane, joinSlash]
    rw [hj]
    apply goClean_abs
    simp [isAbs, String.data_append, hd, ha]

theorem resolvePath_abs (d p : String) (h : isAbs d = true) :
    isAbs (resolvePath d p) = true := by
  unfold resolvePath
  by_cases hp : isAbs p = true
  · simp [hp]
  · simp only [Bool.not_eq_true] at hp
    simp [hp]
    exact goJoin_abs d p h

/-- An already-absolute path is returned unchanged. -/
theorem resolvePath_of_abs (d p : String) (h : isAbs p = true) : resolvePath d p = p := by
  simp [resolvePath, h]

/-- Inversion of the read tail of InitConfig: a normal return stores the
normalized unmarshalled snapshot in the Config global. -/
theorem initConfigRead_ok (s s' : AppState) (h : initConfigRead s = InitOutcome.ok s') :
    s'.config = some (normalizeConfigPaths (filepathDir s'.viper.configFile)
      (unmarshalConfig s'.viper s'.env)) := by
  unfold initConfigRead at h
  simp only [] at h
  split at h
  · exact absurd h (by simp)
  · exact absurd h (by simp)
  · split at h
    · injection h with h2
      subst h2
      rfl
    · exact absurd h (by simp)

theorem initConfigWrite_ok (s s' : AppState) (h : initConfigWrite s = InitOutcome.ok s') :
    s'.config = some (normalizeConfigPaths (filepathDir s'.viper.configFile)
      (unmarshalConfig s'.viper s'.env)) := by
  unfold initConfigWrite at h
  simp only [] at h
  split at h
  · split at h
    · exact absurd h (by simp)
    · exact initConfigRead_ok _ _ h
  · exact absurd h (by simp)

theorem initConfigFrom_ok (s s' : AppState) (h : initConfigFrom s = InitOutcome.ok s') :
    s'.config = some (normalizeConfigPaths (filepathDir s'.viper.configFile)
      (unmarshalConfig s'.viper s'.env)) := by
  unfold initConfigFrom at h
  split at h
  · exact initConfigRead_ok _ _ h
  · split at h
    · exact initConfigWrite_ok _ _ h
    · split at h
      · exact initConfigWrite_ok _ _ h
      · exact absurd h (by simp)

/-- Whenever InitConfig returns normally, the Config global holds the
unmarshalled snapshot with its four path fields normalized against the
directory of the active configuration file. -/
theorem initConfig_ok_config (s s' : AppState) (h : initConfig s = InitOutcome.ok s') :
    s'.config = some (normalizeConfigPaths (filepathDir s'.viper.configFile)
      (unmarshalConfig s'.viper s'.env)) := by
  unfold initConfig at h
  split at h
  · split at h
    · exact absurd h (by simp)
    · exact initConfigFrom_ok _ _ h
  · exact initConfigFrom_ok _ _ h

/-- After the viper.Set block of SaveConfig, the merged secret is the new
configuration's secret (the override layer wins every lookup). -/
theorem setAll_jwtsecret (v : Viper) (env : String → Option String) (c : Config) :
    vGetString (viperSetAll v c) env "auth.jwtsecret" = c.auth.jwtSecret := by rfl

theorem setAll_jwtexpiry (v : Viper) (env : String → Option String) (c : Config) :
    vGetDuration (viperSetAll v c) env "auth.jwtexpiry" = c.auth.jwtExpiry := by rfl

theorem setAll_jwtrefresh (v : Viper) (env : String → Option String) (c : Config) :
    vGetDuration (viperSetAll v c) env "auth.jwtrefreshexpiry" = c.auth.jwtRefreshExpiry := by rfl

/-- The settings written to disk after the viper.Set block carry the new
secret under auth.jwtsecret. -/
theorem setAll_disk_jwtsecret (v : Viper) (env : String → Option String) (c : Config) :
    (allSettings (viperSetAll v c) env).lookup "auth.jwtsecret" =
      some (VValue.str c.auth.jwtSecret) := by rfl

/-! ## C1 -/

/-- C1 (amended): SaveConfig performs no structural validation at all: for
every prior state and every argument - well-formed or not - it replaces
the process-wide Configuration with the argument as its first step, and
it never returns a ValidationError. -/
theorem C1_no_validation (s : AppState) (cfg : Option Config) :
    (saveConfig s cfg).state.config = cfg ∧
    (saveConfig s cfg).err ≠ some GoErr.validation := by
  rcases cfg with _ | c
  · exact ⟨rfl, by simp [saveConfig, SaveOutcome.err]⟩
  · rcases hl : s.log with _ | lg <;> rcases hw : s.writeOk <;>
      simp [saveConfig, initAuthentication, initDB, SaveOutcome.err, SaveOutcome.state, hl, hw]

/-- C1 counterexample: the structurally invalid configuration nil, applied
to a state whose active configuration is cfgA: SaveConfig replaces the
global with nil (and then crashes on the first dereference), and no
ValidationError is returned - the previously active Configuration is not
left unchanged. -/
theorem C1_counterexample :
    structurallyWellFormed none = false ∧
    sBase.config = some cfgA ∧
    (saveConfig sBase none).state.config = none ∧
    (saveConfig sBase none).panicked = true ∧
    (saveConfig sBase none).err ≠ some GoErr.validation := by decide

/-! ## C2 -/

/-- C2 (amended): when persisting the new configuration fails, SaveConfig
returns the persistence error, but nothing is rolled back: the in-memory
Configuration remains the new configuration, and the authentication
state has already been re-initialized from it. -/
theorem C2_no_rollback (s : AppState) (c : Config) (lg : LogCfg)
    (hlog : s.log = some lg) (hw : s.writeOk = false) :
    (saveConfig s (some c)).err = some GoErr.writeErr ∧
    (saveConfig s (some c)).state.config = some c ∧
    (saveConfig s (some c)).state.auth =
      some (c.auth.jwtSecret, c.auth.jwtExpiry, c.auth.jwtRefreshExpiry) := by
  simp [saveConfig, initAuthentication, initDB, SaveOutcome.err, SaveOutcome.state, hlog, hw,
        setAll_jwtsecret, setAll_jwtexpiry, setAll_jwtrefresh]

/-- C2 counterexample: a failing write with active configuration cfgA and
new configuration cfgB: the call returns the write error, yet the
in-memory Configuration is cfgB, not the prior cfgA the claim requires. -/
theorem C2_counterexample :
    (saveConfig sWriteFail (some cfgB)).err = some GoErr.writeErr ∧
    sWriteFail.config = some cfgA ∧
    (saveConfig sWriteFail (some cfgB)).state.config = some cfgB ∧
    cfgB ≠ cfgA := by decide

/-- C2 witness: the amended statement at the concrete failing-write state. -/
theorem C2_witness :
    (saveConfig sWriteFail (some cfgB)).err = some GoErr.writeErr ∧
    (saveConfig sWriteFail (some cfgB)).state.config = some cfgB ∧
    (saveConfig sWriteFail (some cfgB)).state.auth =
      some (cfgB.auth.jwtSecret, cfgB.auth.jwtExpiry, cfgB.auth.jwtRefreshExpiry) :=
  C2_no_rollback sWriteFail cfgB lgA (by rfl) (by rfl)

/-! ## C3 -/

/-- C3 (amended): in every SaveConfig run the order is the reverse of the
claim's: InitAuthentication and InitDB re-initialize against the new
configuration first, and the write of the configuration file is the
final step. -/
theorem C3_reinit_before_persist (s : AppState) (c : Config) (lg : LogCfg)
    (hlog : s.log = some lg) (ht : s.trace = []) :
    before (saveConfig s (some c)).state.trace Ev.authInit Ev.writeConfig = true ∧
    before (saveConfig s (some c)).state.trace Ev.dbConnect Ev.writeConfig = true := by
  have htr : (saveConfig s (some c)).state.trace =
      [Ev.setGlobalConfig, Ev.viperSetAll, Ev.authInit, Ev.dbConnect,
       Ev.logInfo "saveConfig", Ev.writeConfig] := by
    rcases hw : s.writeOk <;>
      simp [saveConfig, initAuthentication, initDB, SaveOutcome.state, hlog, ht, hw]
  rw [htr]
  decide

/-- C3 counterexample: in the concrete SaveConfig run from sBase the
write-to-disk step does not happen before the InitAuthentication step,
though both occur. -/
theorem C3_counterexample :
    before (saveConfig sBase (some cfgB)).state.trace Ev.writeConfig Ev.authInit = false ∧
    Ev.writeConfig ∈ (saveConfig sBase (some cfgB)).state.trace ∧
    Ev.authInit ∈ (saveConfig sBase (some cfgB)).state.trace := by decide

/-- C3 witness: the amended ordering at the concrete run from sBase. -/
theorem C3_witness :
    before (saveConfig sBase (some cfgB)).state.trace Ev.authInit Ev.writeConfig = true ∧
    before (saveConfig sBase (some cfgB)).state.trace Ev.dbConnect Ev.writeConfig = true :=
  C3_reinit_before_persist sBase cfgB lgA (by rfl) (by rfl)

/-! ## C4 -/

/-- C4: the merged value follows the precedence flag over environment
over file over built-in default, for every key of the viper state as
InitConfig configures it (automatic environment with the abstruse
namespace, no overrides - InitConfig never calls viper.Set): a changed
flag wins outright; with the flag unset, a set environment variable
wins; with neither, the persisted file value; with none of the three,
the flag's built-in default.  In particular, for key db.host set in the
file while ABSTRUSE_DB_HOST is set and no flag is passed, the merged
Config.Db.Host equals the environment value. -/
theorem C4_precedence (v : Viper) (env : String → Option String) (k : String)
    (f : Flag) (fileVal : VValue) (envVal : String)
    (hauto : v.autoEnv = true) (hov : v.overrides = [])
    (hflag : v.flags.lookup (goToLower k) = some f) :
    (f.changed = true → viperGet v env k = some f.value) ∧
    (f.changed = false → env (envKeyOf v (goToLower k)) = some envVal →
      viperGet v env k = some (VValue.str envVal)) ∧
    (f.changed = false → env (envKeyOf v (goToLower k)) = none →
      v.configMap.lookup (goToLower k) = some fileVal →
      viperGet v env k = some fileVal) ∧
    (f.changed = false → env (envKeyOf v (goToLower k)) = none →
      v.configMap.lookup (goToLower k) = none →
      viperGet v env k = some f.defValue) ∧
    (f.changed = false → k = "db.host" → env (envKeyOf v (goToLower k)) = some envVal →
      (unmarshalConfig v env).db.host = envVal) := by
  have hov' : v.overrides.lookup (goToLower k) = none := by rw [hov]; rfl
  refine ⟨fun hch => ?_, fun hch henv => ?_, fun hch henv hfile => ?_,
          fun hch henv hfile => ?_, fun hch hk henv => ?_⟩
  · unfold viperGet
    simp [hov', hflag, hch]
  · unfold viperGet
    simp [hov', hflag, hch, hauto, henv]
  · unfold viperGet
    simp [hov', hflag, hch, hauto, henv, hfile]
  · unfold viperGet
    simp [hov', hflag, hch, hauto, henv, hfile]
  · subst hk
    have h2 : viperGet v env "db.host" = some (VValue.str envVal) := by
      unfold viperGet
      simp [hov', hflag, hch, hauto, henv]
    simp [unmarshalConfig, vGetString, h2, toGoString]

/-- C4 witness: the spec's scenario - file db.host=localhost, environment
ABSTRUSE_DB_HOST=remote, db-host flag bound but not passed - instantiating
every tier of the precedence statement. -/
theorem C4_witness :
    (flagC4.changed = true → viperGet vC4 envC4 "db.host" = some flagC4.value) ∧
    (flagC4.changed = false → envC4 (envKeyOf vC4 (goToLower "db.host")) = some "remote" →
      viperGet vC4 envC4 "db.host" = some (VValue.str "remote")) ∧
    (flagC4.changed = false → envC4 (envKeyOf vC4 (goToLower "db.host")) = none →
      vC4.configMap.lookup (goToLower "db.host") = some (VValue.str "localhost") →
      viperGet vC4 envC4 "db.host" = some (VValue.str "localhost")) ∧
    (flagC4.changed = false → envC4 (envKeyOf vC4 (goToLower "db.host")) = none →
      vC4.configMap.lookup (goToLower "db.host") = none →
      viperGet vC4 envC4 "db.host" = some flagC4.defValue) ∧
    (flagC4.changed = false → "db.host" = "db.host" →
      envC4 (envKeyOf vC4 (goToLower "db.host")) = some "remote" →
      (unmarshalConfig vC4 envC4).db.host = "remote") :=
  C4_precedence vC4 envC4 "db.host" flagC4 (VValue.str "localhost") "remote"
    (by rfl) (by rfl) (by rfl)

/-! ## C5 -/

/-- C5 (amended): whenever InitConfig returns successfully and the
directory containing the active configuration file is itself absolute,
the stored Configuration is the unmarshalled snapshot with its four
path-bearing fields normalized: each holds an absolute path, and a field
that was already absolute before normalization is kept unchanged.  (With
a relative configuration-file path the directory is relative and the
fields can stay relative, as the counterexample shows.) -/
theorem C5_paths_absolute (s s' : AppState) (c : Config)
    (h : initConfig s = InitOutcome.ok s')
    (hc : s'.config = some c)
    (hd : isAbs (filepathDir s'.viper.configFile) = true) :
    c = normalizeConfigPaths (filepathDir s'.viper.configFile)
          (unmarshalConfig s'.viper s'.env) ∧
    isAbs c.tls.cert = true ∧ isAbs c.tls.key = true ∧
    isAbs c.etcd.dataDir = true ∧ isAbs c.log.filename = true ∧
    (isAbs (unmarshalConfig s'.viper s'.env).tls.cert = true →
      c.tls.cert = (unmarshalConfig s'.viper s'.env).tls.cert) := by
  have hcfg := initConfig_ok_config s s' h
  rw [hc] at hcfg
  injection hcfg with hcfg
  subst hcfg
  refine ⟨rfl, ?_, ?_, ?_, ?_, ?_⟩
  · simpa [normalizeConfigPaths] using resolvePath_abs _ _ hd
  · simpa [normalizeConfigPaths] using resolvePath_abs _ _ hd
  · simpa [normalizeConfigPaths] using resolvePath_abs _ _ hd
  · simpa [normalizeConfigPaths] using resolvePath_abs _ _ hd
  · intro hu
    simpa [normalizeConfigPaths] using resolvePath_of_abs _ _ hu

/-- C5 counterexample: InitConfig run with the relative configuration
path x.json and a relative tls.cert in the file returns successfully,
yet Config.TLS.Cert is not absolute (it stays c.pem, joined under "."). -/
theorem C5_counterexample :
    (initConfig sRel).isOk = true ∧
    isAbs ((initConfig sRel).state.config.getD cfgA).tls.cert = false := by decide

/-- C5 witness: the amended statement at a successful concrete run from
an absolute configuration path with mixed relative and absolute fields. -/
theorem C5_witness :
    cAbsOut = normalizeConfigPaths (filepathDir sAbsOut.viper.configFile)
        (unmarshalConfig sAbsOut.viper sAbsOut.env) ∧
    isAbs cAbsOut.tls.cert = true ∧ isAbs cAbsOut.tls.key = true ∧
    isAbs cAbsOut.etcd.dataDir = true ∧ isAbs cAbsOut.log.filename = true ∧
    (isAbs (unmarshalConfig sAbsOut.viper sAbsOut.env).tls.cert = true →
      cAbsOut.tls.cert = (unmarshalConfig sAbsOut.viper sAbsOut.env).tls.cert) :=
  C5_paths_absolute sAbsIn sAbsOut cAbsOut (by rfl) (by rfl) (by decide)

/-! ## C6 -/

/-- C6: path resolution is idempotent: once Resolve(d, p) is absolute,
resolving the result against the same base directory d returns it
unchanged; hence the re-resolution InitTLS performs on the TLS fields
that InitConfig already normalized (then absolute) leaves them exactly
as stored. -/
theorem C6_resolve_idempotent (d p cf : String) (c : Config)
    (h : isAbs (resolvePath d p) = true)
    (hc : isAbs c.tls.cert = true) (hk : isAbs c.tls.key = true) :
    resolvePath d (resolvePath d p) = resolvePath d p ∧
    initTLSPaths cf c = (c.tls.cert, c.tls.key) := by
  constructor
  · exact resolvePath_of_abs d _ h
  · unfold initTLSPaths
    rw [resolvePath_of_abs _ _ hc, resolvePath_of_abs _ _ hk]

/-- C6 witness: idempotence at base /h/a and relative path cert.pem, and
InitTLS leaving the absolute TLS fields of cfgA unchanged. -/
theorem C6_witness :
    resolvePath "/h/a" (resolvePath "/h/a" "cert.pem") = resolvePath "/h/a" "cert.pem" ∧
    initTLSPaths "/h/a/f.json" cfgA = (cfgA.tls.cert, cfgA.tls.key) :=
  C6_resolve_idempotent "/h/a" "cert.pem" "/h/a/f.json" cfgA (by decide) (by decide) (by decide)

/-! ## C7 -/

/-- C7: after SaveConfig with a configuration carrying a new JWT secret
(and write succeeding), a subsequent InitAuthentication derives the
process-wide authentication state from the new secret and the new
access/refresh expiries; the authentication state set during SaveConfig
itself already does; and the configuration file on disk holds the new
secret when re-read. -/
theorem C7_secret_applies (s : AppState) (c : Config) (lg : LogCfg)
    (hlog : s.log = some lg) (hw : s.writeOk = true) :
    (initAuthentication (saveConfig s (some c)).state).auth =
      some (c.auth.jwtSecret, c.auth.jwtExpiry, c.auth.jwtRefreshExpiry) ∧
    (saveConfig s (some c)).state.auth =
      some (c.auth.jwtSecret, c.auth.jwtExpiry, c.auth.jwtRefreshExpiry) ∧
    diskLookup (saveConfig s (some c)).state "auth.jwtsecret" =
      some (VValue.str c.auth.jwtSecret) := by
  simp [saveConfig, initAuthentication, initDB, SaveOutcome.state, diskLookup, hlog, hw,
        setAll_jwtsecret, setAll_jwtexpiry, setAll_jwtrefresh, setAll_disk_jwtsecret]

/-- C7 witness: the statement at the concrete run from sBase with cfgB,
whose JWT secret is new. -/
theorem C7_witness :
    (initAuthentication (saveConfig sBase (some cfgB)).state).auth =
      some (cfgB.auth.jwtSecret, cfgB.auth.jwtExpiry, cfgB.auth.jwtRefreshExpiry) ∧
    (saveConfig sBase (some cfgB)).state.auth =
      some (cfgB.auth.jwtSecret, cfgB.auth.jwtExpiry, cfgB.auth.jwtRefreshExpiry) ∧
    diskLookup (saveConfig sBase (some cfgB)).state "auth.jwtsecret" =
      some (VValue.str cfgB.auth.jwtSecret) :=
  C7_secret_applies sBase cfgB lgA (by rfl) (by rfl)

/-! ## C8 -/

/-- C8: evaluating InitConfig at the spec's fresh-environment scenario
(ConfigFile unset, home /h, no file and no directory, Log still nil
because InitConfig runs first): the directory /h/abstruse is created and
a default configuration file is written there, but the run then panics
dereferencing the nil Log global at Log.Sugar() - before the file is
ever read - so the Config global stays unset and TLS.Cert is never
resolved. -/
theorem C8_fresh_run_panics :
    (initConfig sFresh).panicked = true ∧
    (initConfig sFresh).panicSite = some "Log.Sugar.initConfig" ∧
    (initConfig sFresh).state.configFile = "/h/abstruse/abstruse-server.json" ∧
    "/h/abstruse" ∈ (initConfig sFresh).state.dirs ∧
    (initConfig sFresh).state.diskFile.isSome = true ∧
    Ev.readInConfig ∉ (initConfig sFresh).state.trace ∧
    (initConfig sFresh).state.config = none := by decide

/-! ## C9 -/

/-- C9: on the first-run path of InitConfig (configuration file absent)
the Log global is dereferenced by Log.Sugar() while it is still nil -
Log is only assigned at the end of InitConfig - so when InitConfig is
the first initialization step the branch panics, and Log is still nil in
the state the panic leaves behind. -/
theorem C9_nil_logger (s : AppState)
    (hlog : s.log = none) (habsent : s.diskFile = none)
    (hcf : s.configFile ≠ "")
    (hdir : filepathDir s.configFile ∈ s.dirs)
    (hw : s.writeOk = true) :
    (initConfig s).panicked = true ∧
    (initConfig s).panicSite = some "Log.Sugar.initConfig" ∧
    (initConfig s).state.log = none := by
  unfold initConfig
  rw [if_neg hcf]
  simp [viperSetup, initConfigFrom, initConfigWrite, habsent, hdir, hw, hlog,
        InitOutcome.panicked, InitOutcome.panicSite, InitOutcome.state]

/-- C9 witness: the nil-logger panic at a concrete first-run state with
an explicit configuration path. -/
theorem C9_witness :
    (initConfig sC9).panicked = true ∧
    (initConfig sC9).panicSite = some "Log.Sugar.initConfig" ∧
    (initConfig sC9).state.log = none :=
  C9_nil_logger sC9 (by rfl) (by rfl) (by decide) (by decide) (by rfl)

/-! ## C10 -/

/-- C10 (amended): ReadAndParseConfig errs exactly when reading fails or
the content is not valid JSON for the schema; on a read failure or a
JSON syntax error the returned Config is the zero value; but on a type
mismatch inside valid JSON the returned Config is whatever Unmarshal
managed to decode - not necessarily the zero value - and on success it
is the parsed content. -/
theorem C10_read_parse (fs : String → Option (Option Json)) (p : String) :
    ((readAndParseConfig fs p).2 = none ↔
      ∃ j, fs p = some (some j) ∧ (unmarshalAppConfig j).2 = none) ∧
    (fs p = none → readAndParseConfig fs p = (appZeroConfig, some AppErr.reading)) ∧
    (fs p = some none →
      readAndParseConfig fs p = (appZeroConfig, some (AppErr.parsing UnmErr.syntaxErr))) ∧
    (∀ j, fs p = some (some j) → (readAndParseConfig fs p).1 = (unmarshalAppConfig j).1) := by
  rcases hf : fs p with _ | mj
  · simp [readAndParseConfig, hf]
  · rcases mj with _ | j
    · simp [readAndParseConfig, hf]
    · rcases hu : unmarshalAppConfig j with ⟨c, e⟩
      rcases e with _ | er
      · simp [readAndParseConfig, hf, hu]
      · simp [readAndParseConfig, hf, hu]

/-- C10 counterexample: a file whose JSON is valid but gives log_level a
number: ReadAndParseConfig returns a non-nil error together with a
Config whose cert field was already decoded to "a" - not the zero-valued
struct the claim requires in every error case. -/
theorem C10_counterexample :
    (readAndParseConfig fsC10 "cfg.json").2 =
      some (AppErr.parsing (UnmErr.typeMismatch "log_level")) ∧
    (readAndParseConfig fsC10 "cfg.json").1.cert = "a" ∧
    appZeroConfig.cert = "" ∧
    (readAndParseConfig fsC10 "cfg.json").1 ≠ appZeroConfig := by
  refine ⟨by rfl, by rfl, by rfl, fun h => ?_⟩
  have h2 : ("a" : String) = "" := congrArg AppConfig.cert h
  exact absurd h2 (by decide)

end Abstruse
